import Mathlib

/-!
Shallow embedding of the flag-edge level/pattern detection engine.

Conventions used throughout this development:
* JavaScript numbers are modelled as rationals (`ℚ`); division by zero yields
  `0` in `ℚ` where JavaScript would yield `NaN`/`Infinity`.  Each place where
  this matters is marked with a comment; no theorem below depends on such a
  branch.
* Timestamps are modelled as integers (epoch milliseconds), calendar dates as
  natural numbers (day numbers).
* Nullable / possibly-absent values are modelled with `Option`; JavaScript
  truthiness tests (`!x`) on numbers treat both `null`/`undefined` and `0` as
  falsy, which the helpers `jsFalsyQ` and `jsOrQ` reproduce.
* String-valued tags of the source (`'bullish_flag'`, `'medium'`, reason
  messages, ...) are modelled as closed inductive types.
-/

namespace FlagEdge

/-- OHLCV bar (lib/bar-aggregator output; `aggregated_bars` row). -/
structure Bar where
  timestamp : Int
  open_ : ℚ
  high : ℚ
  low : ℚ
  close : ℚ
  volume : ℚ
  deriving DecidableEq

instance : Inhabited Bar := ⟨⟨0, 0, 0, 0, 0, 0⟩⟩

/-- JavaScript truthiness of a nullable number: `null`/`undefined` and `0` are falsy. -/
def jsFalsyQ : Option ℚ → Bool
  | none => true
  | some x => decide (x = 0)

/-- JavaScript `a || b` for a nullable number `a` with default `b`. -/
def jsOrQ : Option ℚ → ℚ → ℚ
  | none, d => d
  | some x, d => if x = 0 then d else x

/-- `pattern_type` column of `pattern_states`. -/
inductive PatternType
  | bullish_flag
  | bearish_flag
  deriving DecidableEq

/-- `stage` column of `pattern_states` (lifecycle state machine). -/
inductive Stage
  | FORMING
  | CONSOLIDATING
  | CONFIRMED
  | BROKEN_OUT
  | FAILED
  | EXPIRED
  deriving DecidableEq

/-- The fields of a `pattern_states` row used by breakout monitoring
(lib/pattern-manager.js).  `breakout_level` is nullable in the store. -/
structure Pattern where
  pattern_type : PatternType
  stage : Stage
  confidence : ℚ
  quality_score : ℚ
  breakout_level : Option ℚ
  pole_avg_volume : ℚ
  expires_at : Int
  deriving DecidableEq

/-- `this.touchThreshold = 0.005` in `PatternManager`. -/
def touchThreshold : ℚ := 5 / 1000

inductive Direction
  | up
  | down
  deriving DecidableEq

/-- Tag for the `reason` strings returned by `PatternManager.checkBreakout`. -/
inductive BreakoutReason
  | missingData
  | notBeyondLevel
  deriving DecidableEq

/-- Result object of `PatternManager.checkBreakout`.  Fields that a given
return statement of the source omits are `undefined` in JavaScript, hence
falsy; they are modelled by the defaults below. -/
structure BreakoutResult where
  breakout : Bool
  reason : Option BreakoutReason := none
  direction : Option Direction := none
  volumeConfirmed : Bool := false
  barConfirmed : Bool := false
  breakoutStrength : ℚ := 0
  deriving DecidableEq

/-- `PatternManager.checkBreakout(pattern, currentPrice, currentVolume, currentBar)`
(lib/pattern-manager.js lines 40-102). -/
def checkBreakout (p : Pattern) (currentPrice : Option ℚ) (currentVolume : ℚ)
    (currentBar : Bar) : BreakoutResult :=
  let isBullish := decide (p.pattern_type = PatternType.bullish_flag)
  if jsFalsyQ p.breakout_level || jsFalsyQ currentPrice then
    { breakout := false, reason := some BreakoutReason.missingData }
  else
    let breakoutLevel := p.breakout_level.getD 0
    let price := currentPrice.getD 0
    let thresholdBuffer := breakoutLevel * touchThreshold
    let breakoutConfirmed :=
      if isBullish then decide (price > breakoutLevel + thresholdBuffer)
      else decide (price < breakoutLevel - thresholdBuffer)
    if breakoutConfirmed = false then
      { breakout := false,
        reason := some BreakoutReason.notBeyondLevel,
        direction := some (if isBullish then Direction.up else Direction.down) }
    else
      let volumeThreshold := p.pole_avg_volume * (6 / 10)
      let volumeConfirmed := decide (currentVolume ≥ volumeThreshold)
      let barConfirmed :=
        if isBullish then decide (currentBar.close > breakoutLevel)
        else decide (currentBar.close < breakoutLevel)
      { breakout := true,
        direction := some (if isBullish then Direction.up else Direction.down),
        volumeConfirmed := volumeConfirmed,
        barConfirmed := barConfirmed,
        breakoutStrength :=
          if isBullish then (price - breakoutLevel) / breakoutLevel * 100
          else (breakoutLevel - price) / breakoutLevel * 100 }

/-- STEP 4 of `executeEnhancedStrategy` (lib/level-flag-strategy.js lines 51-83)
applied to one active pattern and the current bar: `checkBreakout` is invoked
with `currentBar.close` and `currentBar.volume`, and the pattern is marked
`BROKEN_OUT` (`PatternManager.markBreakout`) only when `breakout`,
`volumeConfirmed` and `barConfirmed` all hold. -/
def processPatternBar (p : Pattern) (bar : Bar) : Pattern :=
  let r := checkBreakout p (some bar.close) bar.volume bar
  if r.breakout && r.volumeConfirmed && r.barConfirmed then
    { p with stage := Stage.BROKEN_OUT }
  else p

/-- The non-terminal stages monitored by `PatternManager.getActivePatterns`
(query filter `.in('stage', ['FORMING', 'CONSOLIDATING', 'CONFIRMED'])`). -/
def activeStages : List Stage := [Stage.FORMING, Stage.CONSOLIDATING, Stage.CONFIRMED]

/-- The terminal stages of the pattern lifecycle. -/
def terminalStages : List Stage := [Stage.BROKEN_OUT, Stage.FAILED, Stage.EXPIRED]

/-- The row filter of `PatternManager.getActivePatterns`: non-terminal stage and
`expires_at` strictly in the future (`.gt('expires_at', now)`).  The query's
`detected_at` ordering does not affect which patterns are monitored and is not
modelled. -/
def isActivePattern (p : Pattern) (now : Int) : Bool :=
  decide (p.stage ∈ activeStages) && decide (now < p.expires_at)

/-- One processing cycle's effect on a single stored pattern: patterns not
returned by `getActivePatterns` are never touched by STEP 4. -/
def cycleStepPattern (p : Pattern) (bar : Bar) (now : Int) : Pattern :=
  if isActivePattern p now then processPatternBar p bar else p

/-- One processing cycle's effect on the whole `pattern_states` table
(each row is updated independently by `pattern_id`). -/
def cycleUpdatePatterns (ps : List Pattern) (bar : Bar) (now : Int) : List Pattern :=
  ps.map (fun p => cycleStepPattern p bar now)

/-- Condition 1 of breakout confirmation: the bar's price is beyond
`breakout_level` plus the noise buffer `breakout_level * touchThreshold`, in
the pattern's direction (the cycle passes `currentBar.close` as the price). -/
def priceBeyondBuffer (p : Pattern) (bar : Bar) : Bool :=
  match p.breakout_level with
  | none => false
  | some bl =>
    if p.pattern_type = PatternType.bullish_flag then
      decide (bar.close > bl + bl * touchThreshold)
    else
      decide (bar.close < bl - bl * touchThreshold)

/-- Condition 2 of breakout confirmation: bar volume is at least 60% of the
pattern's pole average volume. -/
def volumeMeetsThreshold (p : Pattern) (bar : Bar) : Bool :=
  decide (bar.volume ≥ p.pole_avg_volume * (6 / 10))

/-- Condition 3 of breakout confirmation: the bar's close is itself beyond
`breakout_level`. -/
def closeBeyondLevel (p : Pattern) (bar : Bar) : Bool :=
  match p.breakout_level with
  | none => false
  | some bl =>
    if p.pattern_type = PatternType.bullish_flag then
      decide (bar.close > bl)
    else
      decide (bar.close < bl)

/-- An `execution_state` row (lib/execution-state-manager.js).  The string keys
`symbol`/`timeframe` are abstracted to numeric identifiers; all operations act
on one row, selected by those keys.  `last_daily_reset` is a calendar date. -/
structure ExecutionState where
  symbol : Nat
  timeframe : Nat
  last_bar_processed : Option Int
  last_execution_time : Int
  active_patterns_count : Nat
  active_levels_count : Nat
  bars_analyzed : Nat
  patterns_detected_today : Nat
  signals_generated_today : Nat
  trades_executed_today : Nat
  last_daily_reset : Nat
  deriving DecidableEq

/-- The `updates` object passed to `ExecutionStateManager.updateExecutionState`:
a partial record; `some v` means the field is present and set to `v`, `none`
means the field is absent and the stored value is kept. -/
structure StateUpdates where
  last_bar_processed : Option Int := none
  active_patterns_count : Option Nat := none
  active_levels_count : Option Nat := none
  bars_analyzed : Option Nat := none
  patterns_detected_today : Option Nat := none
  signals_generated_today : Option Nat := none
  trades_executed_today : Option Nat := none
  deriving DecidableEq

/-- `ExecutionStateManager.updateExecutionState(symbol, timeframe, updates)`
(lib/execution-state-manager.js lines 72-98): spreads `updates` over the stored
row and stamps `last_execution_time`/`updated_at` with the wall clock `now`.
No comparison with the stored cursor is performed. -/
def updateExecutionState (s : ExecutionState) (u : StateUpdates) (now : Int) :
    ExecutionState :=
  { s with
    last_bar_processed :=
      match u.last_bar_processed with
      | some t => some t
      | none => s.last_bar_processed
    active_patterns_count := u.active_patterns_count.getD s.active_patterns_count
    active_levels_count := u.active_levels_count.getD s.active_levels_count
    bars_analyzed := u.bars_analyzed.getD s.bars_analyzed
    patterns_detected_today := u.patterns_detected_today.getD s.patterns_detected_today
    signals_generated_today := u.signals_generated_today.getD s.signals_generated_today
    trades_executed_today := u.trades_executed_today.getD s.trades_executed_today
    last_execution_time := now }

/-- `fetchRecentBars` (lib/level-flag-strategy.js lines 281-310): select bars,
filtered to `timestamp` strictly greater than the stored cursor when one
exists, ordered by descending timestamp, limited, then reversed to
chronological order. -/
def fetchRecentBars (table : List Bar) (s : ExecutionState) (limit : Nat) : List Bar :=
  let filtered : List Bar :=
    match s.last_bar_processed with
    | some t => table.filter (fun b => decide (t < b.timestamp))
    | none => table
  ((filtered.mergeSort (fun a b : Bar => decide (b.timestamp ≤ a.timestamp))).take limit).reverse

/-- STEP 3 + STEP 9 of `executeEnhancedStrategy` restricted to the cursor: when
no new bars are fetched the cycle returns early and writes nothing; otherwise
`last_bar_processed` is set to the timestamp of the last (most recent) fetched
bar via `updateExecutionState`. -/
def cycleAdvanceCursor (table : List Bar) (s : ExecutionState) (limit : Nat)
    (now : Int) : ExecutionState :=
  let bars := fetchRecentBars table s limit
  match bars.getLast? with
  | none => s
  | some currentBar =>
      updateExecutionState s
        { last_bar_processed := some currentBar.timestamp,
          bars_analyzed := some bars.length } now

/-- `ExecutionStateManager.performDailyReset(executionState, today)`
(lib/execution-state-manager.js lines 168-198): zeroes the three `_today`
counters, stamps `last_daily_reset := today` and `last_execution_time`. -/
def performDailyReset (s : ExecutionState) (today : Nat) (now : Int) : ExecutionState :=
  { s with
    patterns_detected_today := 0
    signals_generated_today := 0
    trades_executed_today := 0
    last_daily_reset := today
    last_execution_time := now }

/-- The daily-reset check inside `ExecutionStateManager.getExecutionState`
(lib/execution-state-manager.js lines 56-62): the reset is applied only when
the stored `last_daily_reset` differs from the current date. -/
def resetIfNewDay (s : ExecutionState) (today : Nat) (now : Int) : ExecutionState :=
  if s.last_daily_reset ≠ today then performDailyReset s today now else s

/-- Configuration of `RiskManager` with its constructor defaults
(lib/risk-manager.js lines 4-11). -/
structure RiskConfig where
  maxDailyLoss : ℚ := 1 / 50
  maxPositionSize : ℚ := 1 / 20
  riskPerTrade : ℚ := 1 / 100
  minBuyingPower : ℚ := 1 / 10
  maxOpenPositions : Nat := 5
  deriving DecidableEq

/-- Alpaca account fields read by `RiskManager` (string numbers are modelled
directly as rationals; the source applies `parseFloat`). -/
structure Account where
  equity : ℚ
  last_equity : ℚ
  buying_power : ℚ
  account_blocked : Bool
  trade_suspended_by_user : Bool
  deriving DecidableEq

/-- An open position as read by `RiskManager` (only its presence matters for
the pre-trade position count). -/
structure Position where
  market_value : ℚ
  current_price : ℚ
  deriving DecidableEq

/-- Tag for the `reason` strings returned by `RiskManager.checkPreTradeRisk`. -/
inductive RiskReason
  | dailyLossLimitExceeded
  | maxOpenPositionsReached
  | insufficientBuyingPower
  | accountBlockedOrSuspended
  | allChecksPassed
  deriving DecidableEq

structure RiskCheckResult where
  canTrade : Bool
  reason : RiskReason
  deriving DecidableEq

/-- `RiskManager.checkPreTradeRisk({account, positions, executionState})`
(lib/risk-manager.js lines 16-80): four sequential gates, each returning a
structured `canTrade = false` result; the daily-loss gate runs first. -/
def checkPreTradeRisk (cfg : RiskConfig) (account : Account)
    (positions : List Position) : RiskCheckResult :=
  let dailyPnL := account.equity - account.last_equity
  let dailyLossPct := dailyPnL / account.last_equity
  if dailyLossPct < -cfg.maxDailyLoss then
    { canTrade := false, reason := RiskReason.dailyLossLimitExceeded }
  else if positions.length ≥ cfg.maxOpenPositions then
    { canTrade := false, reason := RiskReason.maxOpenPositionsReached }
  else if account.buying_power / account.equity < cfg.minBuyingPower then
    { canTrade := false, reason := RiskReason.insufficientBuyingPower }
  else if account.account_blocked || account.trade_suspended_by_user then
    { canTrade := false, reason := RiskReason.accountBlockedOrSuspended }
  else
    { canTrade := true, reason := RiskReason.allChecksPassed }

/-- The pattern fields read by `RiskManager.calculatePositionSize`. -/
structure SizingPattern where
  pattern_type : PatternType
  breakout_level : ℚ
  flag_low : ℚ
  flag_high : ℚ
  deriving DecidableEq

/-- The stop-loss side chosen by `calculatePositionSize`: `flag_low` for a
bullish flag, `flag_high` for a bearish flag. -/
def sizingStopLoss (pattern : SizingPattern) : ℚ :=
  if pattern.pattern_type = PatternType.bullish_flag then pattern.flag_low
  else pattern.flag_high

structure PositionSizeResult where
  quantity : Int
  riskAmount : ℚ
  riskPerShare : ℚ
  sizeError : Bool
  deriving DecidableEq

/-- `RiskManager.calculatePositionSize({account, pattern, riskPerTrade})`
(lib/risk-manager.js lines 85-135).  `Math.floor` on a positive quotient is
`Int.floor`; `riskPerTrade || this.riskPerTrade` is `jsOrQ`. -/
def calculatePositionSize (cfg : RiskConfig) (account : Account)
    (pattern : SizingPattern) (riskPerTradeParam : Option ℚ) : PositionSizeResult :=
  let equity := account.equity
  let riskAmount := equity * jsOrQ riskPerTradeParam cfg.riskPerTrade
  let entryPrice := pattern.breakout_level
  let stopLoss := sizingStopLoss pattern
  let riskPerShare := |entryPrice - stopLoss|
  if riskPerShare = 0 then
    { quantity := 0, riskAmount := riskAmount, riskPerShare := 0, sizeError := true }
  else
    let quantity := ⌊riskAmount / riskPerShare⌋
    let maxPositionValue := equity * cfg.maxPositionSize
    let maxQuantity := ⌊maxPositionValue / entryPrice⌋
    let clamped := min quantity maxQuantity
    let final := if clamped < 1 ∧ riskAmount ≥ entryPrice then 1 else clamped
    { quantity := final, riskAmount := riskAmount, riskPerShare := riskPerShare,
      sizeError := false }

/-- `type` tags of levels produced by `LevelDetector` (lib/level-detector.js). -/
inductive LevelType
  | support
  | resistance
  | ma200
  | ma400
  | resistance_trend
  | support_trend
  | volume_level
  | confluence_zone
  deriving DecidableEq

inductive Strength
  | low
  | medium
  | high
  | very_high
  deriving DecidableEq

/-- A level candidate as built by `LevelDetector` before persistence.  The
`touches` and `confidence` fields are absent on some producers (`undefined` in
JavaScript), hence `Option`. -/
structure RawLevel where
  type : LevelType
  value : ℚ
  strength : Strength
  touches : Option Nat := none
  confidence : Option ℚ := none
  deriving DecidableEq

/-- `this.tolerance = 0.002` in `LevelDetector`. -/
def levelTolerance : ℚ := 2 / 1000

/-- JavaScript `l.touches || 1` (0 and `undefined` both fall back to 1). -/
def touchesOrOne : Option Nat → Nat
  | none => 1
  | some n => if n = 0 then 1 else n

/-- JavaScript `l.confidence || 0.5`. -/
def confidenceOrHalf : Option ℚ → ℚ
  | none => 1 / 2
  | some c => if c = 0 then 1 / 2 else c

/-- The inner similarity test of `LevelDetector.consolidateLevels`:
`Math.abs(level.value - other.value) / level.value <= this.tolerance &&
level.type === other.type`.  The denominator is the value of the level whose
group is being formed. -/
def similarLevel (l o : RawLevel) : Bool :=
  decide (|l.value - o.value| / l.value ≤ levelTolerance) && decide (l.type = o.type)

/-- The merged level pushed by `consolidateLevels` for one group: spread of the
group's first level with averaged value, summed touches, touch-escalated
strength, and touch-boosted confidence capped at 0.95. -/
def mergeSimilar (l : RawLevel) (group : List RawLevel) : RawLevel :=
  let n : ℚ := group.length
  let avgPrice := (group.map RawLevel.value).sum / n
  let totalTouches := (group.map (fun g => touchesOrOne g.touches)).sum
  let avgConfidence := (group.map (fun g => confidenceOrHalf g.confidence)).sum / n
  { l with
    value := avgPrice
    touches := some totalTouches
    strength :=
      if totalTouches ≥ 5 then Strength.very_high
      else if totalTouches ≥ 3 then Strength.high
      else Strength.medium
    confidence :=
      some (min (95 / 100) (avgConfidence * (1 + ((totalTouches : ℚ) - 1) * (1 / 10)))) }

/-- `LevelDetector.consolidateLevels(levels)` (lib/level-detector.js lines
342-379).  The source iterates with a `processed` index set: when the outer
loop reaches index `i`, every smaller index is already processed, so each step
groups the first unprocessed level with all later unprocessed similar levels;
this is the equivalent recursion on the remaining list. -/
def consolidateLevels : List RawLevel → List RawLevel
  | [] => []
  | l :: rest =>
    let similar := rest.filter (fun o => similarLevel l o)
    let remaining := rest.filter (fun o => !similarLevel l o)
    mergeSimilar l (l :: similar) :: consolidateLevels remaining
termination_by ls => ls.length
decreasing_by
  simp only [List.length_cons]
  exact Nat.lt_succ_of_le (List.length_filter_le _ _)

/-- `Array.prototype.slice(a, b)` for non-negative indices. -/
def listSlice {α : Type} (l : List α) (a b : Nat) : List α :=
  (l.drop a).take (b - a)

/-- `bars[i]` (all uses below are within bounds; out-of-range access yields the
default bar, mirroring `undefined` never being reached). -/
def barAt (bars : List Bar) (i : Nat) : Bar := bars.getD i default

/-- The pivot-high test of `LevelDetector.findPivotPoints` at index `i` with
window `w`: every high in the left window is `<=` the current high and every
high in the right window is `<` the current high. -/
def isPivotHigh (bars : List Bar) (w i : Nat) : Bool :=
  let current := barAt bars i
  let leftWindow := listSlice bars (i - w) i
  let rightWindow := listSlice bars (i + 1) (i + w + 1)
  leftWindow.all (fun b => decide (b.high ≤ current.high)) &&
    rightWindow.all (fun b => decide (b.high < current.high))

/-- The symmetric pivot-low test of `findPivotPoints`. -/
def isPivotLow (bars : List Bar) (w i : Nat) : Bool :=
  let current := barAt bars i
  let leftWindow := listSlice bars (i - w) i
  let rightWindow := listSlice bars (i + 1) (i + w + 1)
  leftWindow.all (fun b => decide (b.low ≥ current.low)) &&
    rightWindow.all (fun b => decide (b.low > current.low))

/-- The level record pushed for a pivot high. -/
def pivotHighLevel (b : Bar) : RawLevel :=
  { type := LevelType.resistance, value := b.high, strength := Strength.medium,
    touches := some 1, confidence := some (7 / 10) }

/-- The level record pushed for a pivot low. -/
def pivotLowLevel (b : Bar) : RawLevel :=
  { type := LevelType.support, value := b.low, strength := Strength.medium,
    touches := some 1, confidence := some (7 / 10) }

/-- The index range of the `findPivotPoints` loop:
`for (let i = window; i < bars.length - window; i++)`. -/
def pivotIndexRange (bars : List Bar) (w : Nat) : List Nat :=
  (List.range bars.length).filter (fun i => decide (w ≤ i) && decide (i + w < bars.length))

/-- The raw `pivots` array built by `findPivotPoints` before consolidation: one
pivot-high record and/or one pivot-low record per qualifying index, in loop
order. -/
def pivotRecords (bars : List Bar) (w : Nat) : List RawLevel :=
  (pivotIndexRange bars w).flatMap (fun i =>
    (if isPivotHigh bars w i then [pivotHighLevel (barAt bars i)] else []) ++
      (if isPivotLow bars w i then [pivotLowLevel (barAt bars i)] else []))

/-- The indices classified as pivot highs by `findPivotPoints`. -/
def pivotHighIndices (bars : List Bar) (w : Nat) : List Nat :=
  (pivotIndexRange bars w).filter (fun i => isPivotHigh bars w i)

/-- `LevelDetector.findPivotPoints(bars, window = 10)` (lib/level-detector.js
lines 75-117): emit the pivot records, then consolidate them. -/
def findPivotPoints (bars : List Bar) (w : Nat := 10) : List RawLevel :=
  consolidateLevels (pivotRecords bars w)

/-- Modelled from the spec's words, for comparison with `consolidateLevels`:
the touch-count-weighted mean of the inputs' values ("value is the
count-weighted mean of the inputs' values"). -/
def specCountWeightedMean (ls : List RawLevel) : ℚ :=
  (ls.map (fun l => (touchesOrOne l.touches : ℚ) * l.value)).sum /
    (ls.map (fun l => (touchesOrOne l.touches : ℚ))).sum

/-- `Array.prototype.slice(s, e)` with JavaScript index semantics: negative
indices count from the end, indices are clamped to `[0, length]`. -/
def jsSlice {α : Type} (l : List α) (s e : Int) : List α :=
  let n : Int := l.length
  let s' : Int := if s < 0 then max (n + s) 0 else min s n
  let e' : Int := if e < 0 then max (n + e) 0 else min e n
  listSlice l s'.toNat e'.toNat

/-- Maximum of a list of rationals (`Math.max(...xs)`; the empty case, which
JavaScript maps to `-Infinity`, is never reached below). -/
def listMaxQ : List ℚ → ℚ
  | [] => 0
  | x :: xs => xs.foldl max x

/-- Minimum of a list of rationals (`Math.min(...xs)`). -/
def listMinQ : List ℚ → ℚ
  | [] => 0
  | x :: xs => xs.foldl min x

/-- `FlagDetector` constructor constants (lib/flag-detector.js lines 2-8). -/
def minFlagBars : Nat := 5

def maxFlagBars : Nat := 20

def minMovePercent : ℚ := 2 / 100

def flagSlopeThreshold : ℚ := 1 / 1000

def volumeDecreaseThreshold : ℚ := 8 / 10

inductive FlagDirection
  | bullish
  | bearish
  deriving DecidableEq

inductive MoveStrength
  | weak
  | medium
  | strong
  | very_strong
  deriving DecidableEq

inductive QualityTier
  | excellent
  | good
  | fair
  | poor
  deriving DecidableEq

inductive FlagRating
  | excellent
  | very_good
  | good
  | fair
  | poor
  deriving DecidableEq

inductive FlagTimeframe
  | short
  | medium
  | long
  deriving DecidableEq

inductive SlopeDirection
  | up
  | down
  | flat
  deriving DecidableEq

/-- Result object of `FlagDetector.analyzeRecentMove`.  The early return
`{ significantMove: false }` leaves every other field `undefined`; those are
modelled by the defaults. -/
structure MoveAnalysis where
  significantMove : Bool
  direction : FlagDirection := FlagDirection.bearish
  movePercent : ℚ := 0
  strength : MoveStrength := MoveStrength.weak
  volumeConfirmation : Bool := false
  volumeRatio : ℚ := 0
  velocity : ℚ := 0
  duration : Nat := 0
  startPrice : ℚ := 0
  endPrice : ℚ := 0
  deriving DecidableEq

/-- `FlagDetector.calculateBaselineVolume(bars, excludeLastN)` (lib/flag-detector.js
lines 111-120).  For an empty `bars` the fallback computes `0 / 0`, which is
`NaN` in JavaScript and `0` in ℚ; no theorem below depends on that branch. -/
def calculateBaselineVolume (bars : List Bar) (excludeLastN : Nat) : ℚ :=
  let baselineBars := jsSlice bars 0 ((bars.length : Int) - excludeLastN - maxFlagBars)
  if baselineBars.length < 20 then
    (bars.map Bar.volume).sum / (bars.length : ℚ)
  else
    ((jsSlice baselineBars (-30) baselineBars.length).map Bar.volume).sum /
      (min 30 baselineBars.length : ℚ)

/-- `FlagDetector.analyzeRecentMove(bars)` (lib/flag-detector.js lines 63-109). -/
def analyzeRecentMove (bars : List Bar) : MoveAnalysis :=
  let lookbackBars : Int := min 50 ((bars.length : Int) - maxFlagBars)
  let moveBars := jsSlice bars (-(lookbackBars + maxFlagBars)) (-(maxFlagBars : Int))
  if moveBars.length < 5 then { significantMove := false }
  else
    let startPrice := (barAt moveBars 0).close
    let endPrice := (barAt moveBars (moveBars.length - 1)).close
    let movePercent := (endPrice - startPrice) / startPrice
    let direction :=
      if movePercent > 0 then FlagDirection.bullish else FlagDirection.bearish
    let absMovePercent := |movePercent|
    let avgVolume := (moveBars.map Bar.volume).sum / (moveBars.length : ℚ)
    let baselineVolume := calculateBaselineVolume bars moveBars.length
    let volumeRatio := avgVolume / baselineVolume
    let velocity := absMovePercent / (moveBars.length : ℚ)
    let strength :=
      if absMovePercent ≥ 8 / 100 ∧ volumeRatio > 3 / 2 ∧ velocity > 2 / 1000 then
        MoveStrength.very_strong
      else if absMovePercent ≥ 5 / 100 ∧ volumeRatio > 13 / 10 then MoveStrength.strong
      else if absMovePercent ≥ 3 / 100 ∧ volumeRatio > 11 / 10 then MoveStrength.medium
      else MoveStrength.weak
    { significantMove := decide (absMovePercent ≥ minMovePercent)
      direction := direction
      movePercent := absMovePercent
      strength := strength
      volumeConfirmation := decide (volumeRatio > 12 / 10)
      volumeRatio := volumeRatio
      velocity := velocity
      duration := moveBars.length
      startPrice := startPrice
      endPrice := endPrice }

/-- Result object of `FlagDetector.analyzeVolumeDecline`. -/
structure VolumeDecline where
  isDecreasing : Bool
  declineRate : ℚ
  quality : QualityTier
  firstThirdAvg : ℚ := 0
  lastThirdAvg : ℚ := 0
  deriving DecidableEq

/-- `FlagDetector.analyzeVolumeDecline(volumes)` (lib/flag-detector.js lines
193-218). -/
def analyzeVolumeDecline (volumes : List ℚ) : VolumeDecline :=
  if volumes.length < 3 then
    { isDecreasing := true, declineRate := 0, quality := QualityTier.poor }
  else
    let firstThird := listSlice volumes 0 (volumes.length / 3)
    let lastThird := jsSlice volumes (-((volumes.length / 3 : Nat) : Int)) volumes.length
    let firstAvg := firstThird.sum / (firstThird.length : ℚ)
    let lastAvg := lastThird.sum / (lastThird.length : ℚ)
    let declineRate := (firstAvg - lastAvg) / firstAvg
    { isDecreasing := decide (lastAvg < firstAvg * volumeDecreaseThreshold)
      declineRate := declineRate
      quality :=
        if declineRate > 4 / 10 then QualityTier.excellent
        else if declineRate > 2 / 10 then QualityTier.good
        else if declineRate > 1 / 10 then QualityTier.fair
        else QualityTier.poor
      firstThirdAvg := firstAvg
      lastThirdAvg := lastAvg }

/-- Result object of `FlagDetector.analyzeWickQuality`. -/
structure WickQuality where
  longWickCount : Nat
  longWickRatio : ℚ
  quality : QualityTier
  deriving DecidableEq

/-- `FlagDetector.analyzeWickQuality(bars)` (lib/flag-detector.js lines
244-269). -/
def analyzeWickQuality (bars : List Bar) : WickQuality :=
  let longWickCount :=
    (bars.filter (fun bar =>
      let bodySize := |bar.close - bar.open_|
      let upperWick := bar.high - max bar.open_ bar.close
      let lowerWick := min bar.open_ bar.close - bar.low
      let maxWick := max upperWick lowerWick
      decide (maxWick > bodySize * 2))).length
  let longWickRatio := (longWickCount : ℚ) / (bars.length : ℚ)
  { longWickCount := longWickCount
    longWickRatio := longWickRatio
    quality :=
      if longWickRatio < 2 / 10 then QualityTier.excellent
      else if longWickRatio < 4 / 10 then QualityTier.good
      else QualityTier.poor }

/-- Result object of `FlagDetector.analyzePriceAction`. -/
structure PriceActionQuality where
  maxDeviation : ℚ
  wickQuality : WickQuality
  consistency : QualityTier
  avgClose : ℚ
  deriving DecidableEq

/-- `FlagDetector.analyzePriceAction(flagBars)` (lib/flag-detector.js lines
220-242). -/
def analyzePriceAction (flagBars : List Bar) : PriceActionQuality :=
  let closes := flagBars.map Bar.close
  let avgClose := closes.sum / (closes.length : ℚ)
  let maxDeviation := listMaxQ (closes.map (fun close => |close - avgClose| / avgClose))
  { maxDeviation := maxDeviation
    wickQuality := analyzeWickQuality flagBars
    consistency :=
      if maxDeviation < 2 / 100 then QualityTier.excellent
      else if maxDeviation < 3 / 100 then QualityTier.good
      else QualityTier.fair
    avgClose := avgClose }

/-- Result object of `FlagDetector.calculateConsolidationScore`. -/
structure ConsolidationScore where
  score : Nat
  rangePercent : ℚ
  rating : QualityTier
  deriving DecidableEq

/-- `FlagDetector.calculateConsolidationScore(flagBars)` (lib/flag-detector.js
lines 271-296). -/
def calculateConsolidationScore (flagBars : List Bar) : ConsolidationScore :=
  let closes := flagBars.map Bar.close
  let high := listMaxQ closes
  let low := listMinQ closes
  let range := high - low
  let avgPrice := closes.sum / (closes.length : ℚ)
  let rangePercent := range / avgPrice
  let score : Nat :=
    if rangePercent < 1 / 100 then 10
    else if rangePercent < 2 / 100 then 8
    else if rangePercent < 3 / 100 then 6
    else if rangePercent < 4 / 100 then 4
    else 2
  { score := score
    rangePercent := rangePercent
    rating :=
      if score ≥ 8 then QualityTier.excellent
      else if score ≥ 6 then QualityTier.good
      else if score ≥ 4 then QualityTier.fair
      else QualityTier.poor }

/-- `FlagDetector.calculateSlope(prices)` (lib/flag-detector.js lines 314-322):
least-squares slope of prices against their indices.  For fewer than two
prices the denominator is 0: `NaN` in JavaScript, `0` in ℚ. -/
def calculateSlope (prices : List ℚ) : ℚ :=
  let n : ℚ := prices.length
  let xSum := n * (n - 1) / 2
  let ySum := prices.sum
  let xySum := (prices.enum.map (fun p => p.2 * (p.1 : ℚ))).sum
  let xSquaredSum := n * (n - 1) * (2 * n - 1) / 6
  (n * xySum - xSum * ySum) / (n * xSquaredSum - xSum * xSum)

/-- `FlagDetector.validateFlagSlope(slope, expectedDirection)`
(lib/flag-detector.js lines 182-191). -/
def validateFlagSlope (slope : ℚ) (expectedDirection : FlagDirection) : Bool :=
  if expectedDirection = FlagDirection.bullish then decide (slope ≤ flagSlopeThreshold)
  else decide (slope ≥ -flagSlopeThreshold)

structure FlagRange where
  high : ℚ
  low : ℚ
  percent : ℚ
  midpoint : ℚ
  deriving DecidableEq

structure VolumeProfile where
  decreasing : Bool
  avgVolume : ℚ
  volumeDeclineRate : ℚ
  volumeQuality : QualityTier
  deriving DecidableEq

/-- Result object of `FlagDetector.analyzeFlagPattern`; the `isFlag = false`
early return leaves all other fields `undefined` (defaults below). -/
structure FlagPatternAnalysis where
  isFlag : Bool
  bars : Nat := 0
  range : FlagRange := ⟨0, 0, 0, 0⟩
  slope : ℚ := 0
  slopeDirection : SlopeDirection := SlopeDirection.flat
  volumeProfile : VolumeProfile := ⟨true, 0, 0, QualityTier.poor⟩
  priceActionQuality : PriceActionQuality := ⟨0, ⟨0, 0, QualityTier.poor⟩, QualityTier.poor, 0⟩
  timeframe : FlagTimeframe := FlagTimeframe.short
  consolidationScore : ConsolidationScore := ⟨0, 0, QualityTier.poor⟩
  deriving DecidableEq

/-- `FlagDetector.analyzeFlagPattern(flagBars, expectedDirection)`
(lib/flag-detector.js lines 122-180). -/
def analyzeFlagPattern (flagBars : List Bar) (expectedDirection : FlagDirection) :
    FlagPatternAnalysis :=
  if flagBars.length < minFlagBars then { isFlag := false }
  else
    let highs := flagBars.map Bar.high
    let lows := flagBars.map Bar.low
    let closes := flagBars.map Bar.close
    let volumes := flagBars.map Bar.volume
    let flagHigh := listMaxQ highs
    let flagLow := listMinQ lows
    let flagRange := flagHigh - flagLow
    let flagMidpoint := (flagHigh + flagLow) / 2
    let priceRange := flagRange / flagMidpoint
    let isConsolidating := decide (priceRange < 4 / 100)
    let flagSlope := calculateSlope closes
    let slopeIsCorrect := validateFlagSlope flagSlope expectedDirection
    let volumePattern := analyzeVolumeDecline volumes
    { isFlag := isConsolidating && slopeIsCorrect && volumePattern.isDecreasing
      bars := flagBars.length
      range := ⟨flagHigh, flagLow, priceRange, flagMidpoint⟩
      slope := flagSlope
      slopeDirection :=
        if flagSlope > 5 / 10000 then SlopeDirection.up
        else if flagSlope < -(5 / 10000) then SlopeDirection.down
        else SlopeDirection.flat
      volumeProfile :=
        ⟨volumePattern.isDecreasing, volumes.sum / (volumes.length : ℚ),
          volumePattern.declineRate, volumePattern.quality⟩
      priceActionQuality := analyzePriceAction flagBars
      timeframe :=
        if flagBars.length ≤ 8 then FlagTimeframe.short
        else if flagBars.length ≤ 15 then FlagTimeframe.medium
        else FlagTimeframe.long
      consolidationScore := calculateConsolidationScore flagBars }

/-- Result object of `FlagDetector.analyzeVolumePattern`. -/
structure VolumeConfirmation where
  avgFlagVolume : ℚ
  volumeRatioToMove : ℚ
  decreasing : Bool
  quality : QualityTier
  deriving DecidableEq

/-- `FlagDetector.analyzeVolumePattern(flagBars, moveAnalysis)`
(lib/flag-detector.js lines 298-312).  `calculateBaselineVolume([], 0)`
evaluates `0 / 0`: `NaN` in JavaScript (all comparisons false, quality
`'fair'`), `0` in ℚ; no theorem below depends on this function. -/
def analyzeVolumePattern (flagBars : List Bar) (moveAnalysis : MoveAnalysis) :
    VolumeConfirmation :=
  let volumes := flagBars.map Bar.volume
  let avgFlagVolume := volumes.sum / (volumes.length : ℚ)
  let volumeRatioToMove :=
    avgFlagVolume / (moveAnalysis.volumeRatio * calculateBaselineVolume [] 0)
  { avgFlagVolume := avgFlagVolume
    volumeRatioToMove := volumeRatioToMove
    decreasing := (analyzeVolumeDecline volumes).isDecreasing
    quality :=
      if volumeRatioToMove < 7 / 10 then QualityTier.excellent
      else if volumeRatioToMove < 9 / 10 then QualityTier.good
      else QualityTier.fair }

/-- The strength weights of `FlagDetector.calculateConfluence`; the JavaScript
fallback `|| 1` is unreachable for this closed enum. -/
def strengthWeight : Strength → ℚ
  | Strength.low => 1
  | Strength.medium => 2
  | Strength.high => 3
  | Strength.very_high => 4

/-- `FlagDetector.calculateConfluence(flagPattern, levels)` (lib/flag-detector.js
lines 324-364). -/
def calculateConfluence (flagPattern : FlagPatternAnalysis) (levels : List RawLevel) : ℚ :=
  let flagHigh := flagPattern.range.high
  let flagLow := flagPattern.range.low
  let flagMid := flagPattern.range.midpoint
  let tolerance : ℚ := 8 / 1000
  levels.foldl (fun confluenceScore level =>
    let levelValue := level.value
    let nearFlagHigh := decide (|levelValue - flagHigh| / flagHigh < tolerance)
    let nearFlagLow := decide (|levelValue - flagLow| / flagLow < tolerance)
    let nearFlagMid := decide (|levelValue - flagMid| / flagMid < tolerance)
    if nearFlagHigh || nearFlagLow || nearFlagMid then
      let base := strengthWeight level.strength
      let withConfidence :=
        match level.confidence with
        | some c => if c > 8 / 10 then base * (3 / 2) else base
        | none => base
      let withTouches :=
        match level.touches with
        | some t => if t > 2 then withConfidence * (1 + ((t : ℚ) - 2) * (2 / 10))
                    else withConfidence
        | none => withConfidence
      confluenceScore + withTouches
    else confluenceScore) 0

/-- `FlagDetector.calculateBreakoutLevel(flagPattern, direction)`
(lib/flag-detector.js lines 366-374). -/
def calculateBreakoutLevel (flagPattern : FlagPatternAnalysis)
    (direction : FlagDirection) : ℚ :=
  let buffer := flagPattern.range.percent * (1 / 10)
  if direction = FlagDirection.bullish then flagPattern.range.high * (1 + buffer)
  else flagPattern.range.low * (1 - buffer)

/-- Result object of `FlagDetector.validateFlagPattern`. -/
structure FlagValidity where
  score : Nat
  maxScore : Nat
  rating : FlagRating
  confidence : ℚ
  deriving DecidableEq

/-- `FlagDetector.validateFlagPattern(flagPattern, moveAnalysis,
volumeConfirmation)` (lib/flag-detector.js lines 376-418). -/
def validateFlagPattern (flagPattern : FlagPatternAnalysis)
    (moveAnalysis : MoveAnalysis) (volumeConfirmation : VolumeConfirmation) :
    FlagValidity :=
  let s1 : Nat :=
    match moveAnalysis.strength with
    | MoveStrength.very_strong => 4
    | MoveStrength.strong => 3
    | MoveStrength.medium => 2
    | MoveStrength.weak => 1
  let s2 := s1 + (if moveAnalysis.volumeConfirmation then 3 else 0)
  let s3 := s2 +
    (if volumeConfirmation.quality = QualityTier.excellent then 2
     else if volumeConfirmation.quality = QualityTier.good then 1 else 0)
  let s4 := s3 +
    (if flagPattern.consolidationScore.score ≥ 8 then 3
     else if flagPattern.consolidationScore.score ≥ 6 then 2
     else if flagPattern.consolidationScore.score ≥ 4 then 1 else 0)
  let s5 := s4 +
    (if flagPattern.volumeProfile.volumeQuality = QualityTier.excellent then 2
     else if flagPattern.volumeProfile.volumeQuality = QualityTier.good then 1 else 0)
  let s6 := s5 +
    (if flagPattern.priceActionQuality.consistency = QualityTier.excellent then 2
     else if flagPattern.priceActionQuality.consistency = QualityTier.good then 1 else 0)
  let s7 := s6 + (if flagPattern.timeframe = FlagTimeframe.short then 1 else 0)
  let s8 := s7 + (if moveAnalysis.velocity > 3 / 1000 then 1 else 0)
  { score := s8
    maxScore := 17
    rating :=
      if s8 ≥ 13 then FlagRating.excellent
      else if s8 ≥ 10 then FlagRating.very_good
      else if s8 ≥ 7 then FlagRating.good
      else if s8 ≥ 5 then FlagRating.fair
      else FlagRating.poor
    confidence := min (95 / 100) ((s8 : ℚ) / 17) }

structure PreMoveData where
  movePercent : ℚ
  volumeRatio : ℚ
  duration : Nat
  deriving DecidableEq

/-- The pattern object returned by `FlagDetector.detectFlag` on success. -/
structure FlagResult where
  direction : FlagDirection
  preMoveStrength : MoveStrength
  flagBars : Nat
  consolidationRange : FlagRange
  confluence : ℚ
  breakoutLevel : ℚ
  timeframe : FlagTimeframe
  volumeProfile : VolumeProfile
  volumeConfirmation : VolumeConfirmation
  validity : FlagValidity
  preMoveData : PreMoveData
  deriving DecidableEq

/-- `FlagDetector.detectFlag(bars, levels)` (lib/flag-detector.js lines 10-61):
`null` is `none`. -/
def detectFlag (bars : List Bar) (levels : List RawLevel) : Option FlagResult :=
  if bars.length < minFlagBars + 10 then none
  else
    let moveAnalysis := analyzeRecentMove bars
    if moveAnalysis.significantMove = false then none
    else
      let flagBars := jsSlice bars (-(maxFlagBars : Int)) bars.length
      let flagPattern := analyzeFlagPattern flagBars moveAnalysis.direction
      if flagPattern.isFlag = false then none
      else
        let confluence := calculateConfluence flagPattern levels
        let volumeConfirmation := analyzeVolumePattern flagBars moveAnalysis
        let breakoutLevel := calculateBreakoutLevel flagPattern moveAnalysis.direction
        let validity := validateFlagPattern flagPattern moveAnalysis volumeConfirmation
        some
          { direction := moveAnalysis.direction
            preMoveStrength := moveAnalysis.strength
            flagBars := flagPattern.bars
            consolidationRange := flagPattern.range
            confluence := confluence
            breakoutLevel := breakoutLevel
            timeframe := flagPattern.timeframe
            volumeProfile := flagPattern.volumeProfile
            volumeConfirmation := volumeConfirmation
            validity := validity
            preMoveData :=
              ⟨moveAnalysis.movePercent, moveAnalysis.volumeRatio, moveAnalysis.duration⟩ }

/-! Concrete example inputs used by witness and counterexample theorems. -/

/-- An active bullish pattern with breakout level 100 and pole volume 1000. -/
def bullishActivePattern : Pattern :=
  { pattern_type := PatternType.bullish_flag, stage := Stage.CONFIRMED,
    confidence := 3 / 4, quality_score := 7 / 10,
    breakout_level := some 100, pole_avg_volume := 1000, expires_at := 10 }

/-- A bar whose close clears the breakout level of `bullishActivePattern` but
whose volume (100) is below 60% of the pole average volume (600). -/
def lowVolumeBreakoutBar : Bar :=
  { timestamp := 1, open_ := 100, high := 102, low := 100, close := 101, volume := 100 }

/-- A pattern already in a terminal stage. -/
def brokenOutPattern : Pattern := { bullishActivePattern with stage := Stage.BROKEN_OUT }

/-- A pattern whose `breakout_level` is null. -/
def missingLevelPattern : Pattern := { bullishActivePattern with breakout_level := none }

/-- A stored execution-state row with cursor at timestamp 100 and reset date 7. -/
def storedStateExample : ExecutionState :=
  { symbol := 0, timeframe := 0, last_bar_processed := some 100,
    last_execution_time := 0, active_patterns_count := 0, active_levels_count := 0,
    bars_analyzed := 5, patterns_detected_today := 2, signals_generated_today := 1,
    trades_executed_today := 0, last_daily_reset := 7 }

/-- An update carrying a cursor timestamp (50) earlier than the stored one (100). -/
def rewindUpdate : StateUpdates := { last_bar_processed := some 50 }

/-- A bar table holding one bar newer than `storedStateExample`'s cursor. -/
def newerBarTable : List Bar :=
  [{ timestamp := 150, open_ := 1, high := 1, low := 1, close := 1, volume := 1 }]

/-- A support level worth 3 touches at price 100. -/
def levelSupportA : RawLevel :=
  { type := LevelType.support, value := 100, strength := Strength.medium,
    touches := some 3, confidence := some (7 / 10) }

/-- A support level worth 1 touch at price 100.1 (0.1% away from `levelSupportA`). -/
def levelSupportB : RawLevel :=
  { type := LevelType.support, value := 1001 / 10, strength := Strength.medium,
    touches := some 1, confidence := some (6 / 10) }

/-- A small account for the position-sizing witness. -/
def sizingAccount : Account :=
  { equity := 10000, last_equity := 10000, buying_power := 10000,
    account_blocked := false, trade_suspended_by_user := false }

/-- A bearish pattern whose stop distance (150) exceeds the risk budget (100),
making the raw quantity 0 while the budget still covers one unit at entry 100. -/
def smallBudgetPattern : SizingPattern :=
  { pattern_type := PatternType.bearish_flag, breakout_level := 100,
    flag_low := 0, flag_high := 250 }

/-- A one-bar sequence, far below every detector's minimum window. -/
def shortBars : List Bar := [lowVolumeBreakoutBar]

/-! Theorems settling the claims. -/

/-- C3: once a pattern's stage is one of the terminal states `BROKEN_OUT`,
`FAILED` or `EXPIRED`, a processing cycle applies no further stage transition
to it: the cycle only touches patterns returned by `getActivePatterns`, whose
stage filter excludes the terminal states, so the stored pattern is unchanged
regardless of the bar. -/
theorem C3_terminal_stage_never_transitions (p : Pattern) (bar : Bar) (now : Int)
    (h : p.stage ∈ terminalStages) : cycleStepPattern p bar now = p := by
  have hna : p.stage ∉ activeStages := by
    simp only [terminalStages, List.mem_cons, List.not_mem_nil, or_false] at h
    rcases h with h | h | h <;> simp [activeStages, h]
  simp [cycleStepPattern, isActivePattern, hna]

/-- Witness for C3: a cycle leaves `brokenOutPattern` untouched. -/
theorem C3_witness :
    cycleStepPattern brokenOutPattern lowVolumeBreakoutBar 0 = brokenOutPattern :=
  C3_terminal_stage_never_transitions brokenOutPattern lowVolumeBreakoutBar 0 (by decide)

/-- C10: when the pattern's `breakout_level` is missing or zero, or the current
price is missing or zero, `checkBreakout` returns a non-breakout result with
the missing-data reason; missing data can never produce a breakout signal. -/
theorem C10_missing_data_never_breaks_out (p : Pattern) (currentPrice : Option ℚ)
    (currentVolume : ℚ) (bar : Bar)
    (h : jsFalsyQ p.breakout_level = true ∨ jsFalsyQ currentPrice = true) :
    (checkBreakout p currentPrice currentVolume bar).breakout = false ∧
      (checkBreakout p currentPrice currentVolume bar).reason =
        some BreakoutReason.missingData := by
  have hguard : (jsFalsyQ p.breakout_level || jsFalsyQ currentPrice) = true := by
    rcases h with h | h <;> simp [h]
  rw [checkBreakout, if_pos hguard]
  exact ⟨rfl, rfl⟩

/-- Witness for C10: a null breakout level yields the missing-data result. -/
theorem C10_witness :
    (checkBreakout missingLevelPattern (some 101) 5000 lowVolumeBreakoutBar).breakout = false ∧
      (checkBreakout missingLevelPattern (some 101) 5000 lowVolumeBreakoutBar).reason =
        some BreakoutReason.missingData :=
  C10_missing_data_never_breaks_out missingLevelPattern (some 101) 5000 lowVolumeBreakoutBar
    (Or.inl (by decide))

/-- C6: the daily reset is applied only when the stored `last_daily_reset`
differs from the current date; after a reset the stored date equals the
current date; and running the reset check a second time on the same day
returns the row unchanged (the second run is a no-op). -/
theorem C6_daily_reset_once_per_day (s : ExecutionState) (today : Nat) (now now' : Int) :
    (s.last_daily_reset = today → resetIfNewDay s today now = s) ∧
      (resetIfNewDay s today now).last_daily_reset = today ∧
      resetIfNewDay (resetIfNewDay s today now) today now' = resetIfNewDay s today now := by
  by_cases h : s.last_daily_reset = today
  · simp [resetIfNewDay, h]
  · refine ⟨fun hc => absurd hc h, ?_, ?_⟩
    · simp [resetIfNewDay, h, performDailyReset]
    · simp [resetIfNewDay, h, performDailyReset]

/-- Witness for C6: on a day matching the stored reset date the check is the
identity. -/
theorem C6_witness : resetIfNewDay storedStateExample 7 99 = storedStateExample :=
  (C6_daily_reset_once_per_day storedStateExample 7 99 0).1 (by decide)

/-- C9: any bar sequence shorter than `minFlagBars + 10` (15 bars) makes
`detectFlag` return no pattern, without error. -/
theorem C9_short_input_yields_no_pattern (bars : List Bar) (levels : List RawLevel)
    (h : bars.length < minFlagBars + 10) : detectFlag bars levels = none := by
  rw [detectFlag, if_pos h]

/-- Witness for C9: one bar is fewer than 15. -/
theorem C9_witness : detectFlag shortBars [] = none :=
  C9_short_input_yields_no_pattern shortBars [] (by decide)

/-- C7: with equity 100000 and last_equity 103000 (a daily loss of about 2.9%)
and the default 2% daily-loss limit, `checkPreTradeRisk` refuses to trade with
the daily-loss reason, for every positions list, buying power and account
flags: the daily-loss gate runs first and dominates the other checks. -/
theorem C7_daily_loss_check_dominates (positions : List Position) (bp : ℚ)
    (blocked suspended : Bool) :
    checkPreTradeRisk {}
        { equity := 100000, last_equity := 103000, buying_power := bp,
          account_blocked := blocked, trade_suspended_by_user := suspended } positions =
      { canTrade := false, reason := RiskReason.dailyLossLimitExceeded } := by
  have hloss : ((100000 : ℚ) - 103000) / 103000 < -((1 : ℚ) / 50) := by norm_num
  rw [checkPreTradeRisk]
  exact if_pos hloss

/-- C8: whenever the clamped quantity (floor of risk amount over risk-per-share,
capped by the max-position-value quantity) is below one unit while the risk
amount still covers one unit at the entry price, `calculatePositionSize`
returns exactly quantity 1, for every account and pattern with positive
risk-per-share. -/
theorem C8_round_up_to_one_unit (cfg : RiskConfig) (account : Account)
    (pattern : SizingPattern) (rpt : Option ℚ)
    (hpos : 0 < |pattern.breakout_level - sizingStopLoss pattern|)
    (hsmall :
      min ⌊account.equity * jsOrQ rpt cfg.riskPerTrade /
            |pattern.breakout_level - sizingStopLoss pattern|⌋
          ⌊account.equity * cfg.maxPositionSize / pattern.breakout_level⌋ < 1)
    (hbudget : account.equity * jsOrQ rpt cfg.riskPerTrade ≥ pattern.breakout_level) :
    (calculatePositionSize cfg account pattern rpt).quantity = 1 := by
  have hne : |pattern.breakout_level - sizingStopLoss pattern| ≠ 0 := ne_of_gt hpos
  rw [calculatePositionSize]
  simp only [if_neg hne, if_pos (And.intro hsmall hbudget)]

/-- Witness for C8: equity 10000 at the default 1% risk gives a risk budget of
100; the stop distance 150 floors the raw quantity to 0, yet 100 covers one
unit at entry price 100, so the returned quantity is 1. -/
theorem C8_witness : (calculatePositionSize {} sizingAccount smallBudgetPattern none).quantity = 1 :=
  C8_round_up_to_one_unit {} sizingAccount smallBudgetPattern none
    (by
      have h : sizingStopLoss smallBudgetPattern = 250 := rfl
      rw [h]; norm_num [smallBudgetPattern])
    (by
      have h : sizingStopLoss smallBudgetPattern = 250 := rfl
      have h2 : jsOrQ none ({} : RiskConfig).riskPerTrade = 1 / 100 := rfl
      rw [h, h2]; norm_num [smallBudgetPattern, sizingAccount])
    (by
      have h2 : jsOrQ none ({} : RiskConfig).riskPerTrade = 1 / 100 := rfl
      rw [h2]; norm_num [smallBudgetPattern, sizingAccount])

/-- C2, counterexample: `updateExecutionState` applies a provided
`last_bar_processed` unconditionally — writing timestamp 50 over the stored
cursor 100 changes the stored cursor to 50, so an earlier timestamp is neither
rejected nor ignored. -/
theorem C2_counterexample :
    storedStateExample.last_bar_processed = some 100 ∧ (50 : Int) < 100 ∧
      (updateExecutionState storedStateExample rewindUpdate 0).last_bar_processed = some 50 ∧
      (updateExecutionState storedStateExample rewindUpdate 0).last_bar_processed ≠
        storedStateExample.last_bar_processed := by
  refine ⟨rfl, by norm_num, rfl, by decide⟩

/-- C2, amended: the raw state write has no forward-only guard, but the cursor
written by a processing cycle never regresses: bars are fetched strictly after
the stored cursor, and the cycle either writes the timestamp of one of those
bars or (with no new bars) writes nothing. -/
theorem C2_amended_cycle_cursor_never_regresses (table : List Bar) (s : ExecutionState)
    (limit : Nat) (now t : Int) (h : s.last_bar_processed = some t) :
    ∃ t', (cycleAdvanceCursor table s limit now).last_bar_processed = some t' ∧ t ≤ t' := by
  rw [cycleAdvanceCursor]
  rcases hlast : (fetchRecentBars table s limit).getLast? with _ | b
  · exact ⟨t, by simpa using h, le_refl t⟩
  · refine ⟨b.timestamp, by simp [updateExecutionState], ?_⟩
    have hmem : b ∈ fetchRecentBars table s limit := by
      rcases List.getLast?_eq_some_iff.mp hlast with ⟨ys, hys⟩
      rw [hys]; simp
    rw [fetchRecentBars, h] at hmem
    simp only [List.mem_reverse] at hmem
    have hmem2 := List.mem_of_mem_take hmem
    have hperm := List.mergeSort_perm
      (table.filter (fun bb => decide (t < bb.timestamp)))
      (fun a b : Bar => decide (b.timestamp ≤ a.timestamp))
    have hmem3 : b ∈ table.filter (fun bb => decide (t < bb.timestamp)) :=
      hperm.subset hmem2
    have hlt : t < b.timestamp := by
      have := (List.mem_filter.mp hmem3).2
      simpa using this
    exact le_of_lt hlt

/-- Witness for C2's amended theorem: with stored cursor 100 and a table
containing a bar at 150, the cycle writes a cursor that is not earlier. -/
theorem C2_amended_witness :
    ∃ t', (cycleAdvanceCursor newerBarTable storedStateExample 100 0).last_bar_processed =
        some t' ∧ (100 : Int) ≤ t' :=
  C2_amended_cycle_cursor_never_regresses newerBarTable storedStateExample 100 0 100 (by decide)

/-- Helper: if `checkBreakout` on the current bar reports `breakout`,
`volumeConfirmed` and `barConfirmed` all true, then the three breakout
conditions hold for that pattern and bar. -/
lemma breakout_flags_imp (p : Pattern) (bar : Bar)
    (hflags : ((checkBreakout p (some bar.close) bar.volume bar).breakout &&
        (checkBreakout p (some bar.close) bar.volume bar).volumeConfirmed &&
        (checkBreakout p (some bar.close) bar.volume bar).barConfirmed) = true) :
    priceBeyondBuffer p bar = true ∧ volumeMeetsThreshold p bar = true ∧
      closeBeyondLevel p bar = true := by
  rcases hbl : p.breakout_level with _ | bl
  · rw [checkBreakout] at hflags
    simp [jsFalsyQ, hbl] at hflags
  · by_cases hbl0 : bl = 0
    · rw [checkBreakout] at hflags
      simp [jsFalsyQ, hbl, hbl0] at hflags
    · by_cases hcp : bar.close = 0
      · rw [checkBreakout] at hflags
        simp [jsFalsyQ, hbl, hcp] at hflags
      · rw [checkBreakout] at hflags
        by_cases hbul : p.pattern_type = PatternType.bullish_flag
        · by_cases hgt : bar.close > bl + bl * touchThreshold
          · simp [jsFalsyQ, hbl, hbl0, hcp, hbul, hgt] at hflags
            simp [priceBeyondBuffer, volumeMeetsThreshold, closeBeyondLevel, hbl, hbul, hgt]
            tauto
          · simp [jsFalsyQ, hbl, hbl0, hcp, hbul, hgt] at hflags
        · by_cases hlt : bar.close < bl - bl * touchThreshold
          · simp [jsFalsyQ, hbl, hbl0, hcp, hbul, hlt] at hflags
            simp [priceBeyondBuffer, volumeMeetsThreshold, closeBeyondLevel, hbl, hbul, hlt]
            tauto
          · simp [jsFalsyQ, hbl, hbl0, hcp, hbul, hlt] at hflags

/-- C1: an active non-terminal pattern transitions to `BROKEN_OUT` on a new bar
only when all three conditions hold (price beyond buffered breakout level in
the pattern's direction, volume at least 60% of pole average volume, close
beyond the breakout level); if at most two hold, the pattern is unchanged. -/
theorem C1_breakout_requires_all_three_conditions (p : Pattern) (bar : Bar) (now : Int)
    (hstage : p.stage ∈ activeStages) (hexp : now < p.expires_at) :
    ((cycleStepPattern p bar now).stage = Stage.BROKEN_OUT →
        priceBeyondBuffer p bar = true ∧ volumeMeetsThreshold p bar = true ∧
          closeBeyondLevel p bar = true) ∧
      (¬(priceBeyondBuffer p bar = true ∧ volumeMeetsThreshold p bar = true ∧
          closeBeyondLevel p bar = true) → cycleStepPattern p bar now = p) := by
  have hact : isActivePattern p now = true := by
    simp [isActivePattern, hstage, hexp]
  have hcycle : cycleStepPattern p bar now = processPatternBar p bar := by
    rw [cycleStepPattern, if_pos hact]
  constructor
  · intro hbo
    rw [hcycle] at hbo
    by_cases hflags : ((checkBreakout p (some bar.close) bar.volume bar).breakout &&
        (checkBreakout p (some bar.close) bar.volume bar).volumeConfirmed &&
        (checkBreakout p (some bar.close) bar.volume bar).barConfirmed) = true
    · exact breakout_flags_imp p bar hflags
    · exfalso
      simp only [processPatternBar, if_neg hflags] at hbo
      rw [hbo] at hstage
      simp [activeStages] at hstage
  · intro hnot
    have hflags : ¬(((checkBreakout p (some bar.close) bar.volume bar).breakout &&
        (checkBreakout p (some bar.close) bar.volume bar).volumeConfirmed &&
        (checkBreakout p (some bar.close) bar.volume bar).barConfirmed) = true) :=
      fun hf => hnot (breakout_flags_imp p bar hf)
    rw [hcycle]
    simp only [processPatternBar, if_neg hflags]

/-- Witness for C1: `lowVolumeBreakoutBar` clears the price conditions but not
the volume condition, so the active pattern is left unchanged. -/
theorem C1_witness :
    cycleStepPattern bullishActivePattern lowVolumeBreakoutBar 0 = bullishActivePattern := by
  refine (C1_breakout_requires_all_three_conditions bullishActivePattern lowVolumeBreakoutBar 0
    (by decide) (by decide)).2 ?_
  intro hall
  have hv := hall.2.1
  rw [volumeMeetsThreshold] at hv
  norm_num [bullishActivePattern, lowVolumeBreakoutBar] at hv

/-- C4, counterexample: two same-type levels 0.1% apart (within the 0.2%
tolerance) with touch counts 3 and 1 are merged into a single level whose
touches is the sum 4, but whose value is the plain mean 100.05, not the
count-weighted mean 100.025 claimed by the spec. -/
theorem C4_counterexample :
    |levelSupportA.value - levelSupportB.value| / levelSupportA.value ≤ levelTolerance ∧
      levelSupportA.type = levelSupportB.type ∧
      (consolidateLevels [levelSupportA, levelSupportB]).map RawLevel.value = [2001 / 20] ∧
      (consolidateLevels [levelSupportA, levelSupportB]).map RawLevel.touches = [some 4] ∧
      specCountWeightedMean [levelSupportA, levelSupportB] = 4001 / 40 ∧
      (2001 / 20 : ℚ) ≠ 4001 / 40 := by
  have habs : |levelSupportA.value - levelSupportB.value| = 1 / 10 := by
    simp only [levelSupportA, levelSupportB]
    rw [abs_sub_comm, abs_of_nonneg (by norm_num : (0 : ℚ) ≤ 1001 / 10 - 100)]
    norm_num
  have htol : |levelSupportA.value - levelSupportB.value| / levelSupportA.value ≤
      levelTolerance := by
    rw [habs]
    simp only [levelSupportA, levelTolerance]
    norm_num
  have hsim : similarLevel levelSupportA levelSupportB = true := by
    simp only [similarLevel, Bool.and_eq_true, decide_eq_true_eq]
    exact ⟨htol, rfl⟩
  have hstep : consolidateLevels [levelSupportA, levelSupportB] =
      [mergeSimilar levelSupportA [levelSupportA, levelSupportB]] := by
    simp [consolidateLevels, List.filter, hsim]
  refine ⟨htol, rfl, ?_, ?_, ?_, by norm_num⟩
  · rw [hstep]
    simp only [mergeSimilar, List.map, List.sum_cons, List.sum_nil, List.length_cons,
      List.length_nil, levelSupportA, levelSupportB]
    norm_num
  · rw [hstep]
    simp only [mergeSimilar, List.map, List.sum_cons, List.sum_nil, List.length_cons,
      List.length_nil, levelSupportA, levelSupportB, touchesOrOne]
    norm_num
  · simp only [specCountWeightedMean, levelSupportA, levelSupportB, touchesOrOne,
      List.map, List.sum_cons, List.sum_nil]
    norm_num

/-- C4, amended: two same-type levels within the 0.2% relative tolerance (taken
relative to the first level's value) are merged by `consolidateLevels` into a
single level whose touches is the sum of the inputs' touches and whose value is
the unweighted arithmetic mean of the inputs' values (not the count-weighted
mean). -/
theorem C4_amended_merge_two_levels (l1 l2 : RawLevel) (t1 t2 : Nat)
    (htype : l1.type = l2.type)
    (htol : |l1.value - l2.value| / l1.value ≤ levelTolerance)
    (ht1 : l1.touches = some t1) (ht2 : l2.touches = some t2)
    (h1 : 1 ≤ t1) (h2 : 1 ≤ t2) :
    (consolidateLevels [l1, l2]).map RawLevel.value = [(l1.value + l2.value) / 2] ∧
      (consolidateLevels [l1, l2]).map RawLevel.touches = [some (t1 + t2)] := by
  have hsim : similarLevel l1 l2 = true := by
    simp [similarLevel, htol, htype]
  have ht1' : touchesOrOne l1.touches = t1 := by
    rw [ht1, touchesOrOne]
    simp [Nat.pos_iff_ne_zero.mp h1]
  have ht2' : touchesOrOne l2.touches = t2 := by
    rw [ht2, touchesOrOne]
    simp [Nat.pos_iff_ne_zero.mp h2]
  have hstep : consolidateLevels [l1, l2] = [mergeSimilar l1 [l1, l2]] := by
    simp [consolidateLevels, List.filter, hsim]
  rw [hstep]
  constructor
  · simp only [mergeSimilar, List.map, List.sum_cons, List.sum_nil, List.length_cons,
      List.length_nil]
    norm_num
  · simp only [mergeSimilar, List.map, List.sum_cons, List.sum_nil, ht1', ht2']
    norm_num

/-- Witness for C4's amended theorem: the two concrete support levels merge
into one level with value 100.05 and 4 touches. -/
theorem C4_amended_witness :
    (consolidateLevels [levelSupportA, levelSupportB]).map RawLevel.value =
        [(levelSupportA.value + levelSupportB.value) / 2] ∧
      (consolidateLevels [levelSupportA, levelSupportB]).map RawLevel.touches =
        [some (3 + 1)] :=
  C4_amended_merge_two_levels levelSupportA levelSupportB 3 1 rfl
    (by
      have habs : |levelSupportA.value - levelSupportB.value| = 1 / 10 := by
        simp only [levelSupportA, levelSupportB]
        rw [abs_sub_comm, abs_of_nonneg (by norm_num : (0 : ℚ) ≤ 1001 / 10 - 100)]
        norm_num
      rw [habs]
      simp only [levelSupportA, levelTolerance]
      norm_num)
    rfl rfl (by decide) (by decide)

/-- Helper: element lookup in a slice. -/
lemma listSlice_getElem? {α : Type} (l : List α) (a b m : Nat) :
    (listSlice l a b)[m]? = if m < b - a then l[a + m]? else none := by
  simp [listSlice, List.getElem?_take, List.getElem?_drop]

/-- Helper: a Boolean `all` over a slice is a bound-indexed universal. -/
lemma listSlice_all_iff {α : Type} [Inhabited α] (P : α → Bool) (l : List α) (a b : Nat)
    (hb : b ≤ l.length) :
    (listSlice l a b).all P = true ↔
      ∀ k, a ≤ k → k < b → P (l.getD k default) = true := by
  rw [List.all_eq_true]
  constructor
  · intro h k hak hkb
    have hk : k < l.length := lt_of_lt_of_le hkb hb
    have hq : (listSlice l a b)[k - a]? = some (l.getD k default) := by
      rw [listSlice_getElem?, if_pos (by omega : k - a < b - a)]
      have hka : a + (k - a) = k := by omega
      rw [hka, List.getD_eq_getElem?_getD, List.getElem?_eq_getElem hk]
      rfl
    exact h _ (List.getElem?_mem hq)
  · intro h x hx
    rcases List.mem_iff_getElem.mp hx with ⟨m, hm, hval⟩
    have hq : (listSlice l a b)[m]? = some x := by
      rw [List.getElem?_eq_getElem hm, hval]
    rw [listSlice_getElem?] at hq
    by_cases hcond : m < b - a
    · rw [if_pos hcond] at hq
      rcases List.getElem?_eq_some_iff.mp hq with ⟨hlt, heq⟩
      have hgd : l.getD (a + m) default = x := by
        rw [List.getD_eq_getElem?_getD, List.getElem?_eq_getElem hlt, heq]
        rfl
      have := h (a + m) (Nat.le_add_right a m) (by omega)
      rwa [hgd] at this
    · rw [if_neg hcond] at hq
      exact absurd hq (by simp)

/-- Helper: membership in the pivot-high index list unfolded into the loop
bounds and the pivot-high test. -/
lemma mem_pivotHighIndices_iff (bars : List Bar) (w i : Nat) :
    i ∈ pivotHighIndices bars w ↔
      w ≤ i ∧ i + w < bars.length ∧ isPivotHigh bars w i = true := by
  simp only [pivotHighIndices, pivotIndexRange, List.mem_filter, List.mem_range,
    Bool.and_eq_true, decide_eq_true_eq]
  constructor
  · rintro ⟨⟨_, hw, hlen⟩, hp⟩
    exact ⟨hw, hlen, hp⟩
  · rintro ⟨hw, hlen, hp⟩
    exact ⟨⟨by omega, hw, hlen⟩, hp⟩

/-- Helper: the pivot-high test characterised by indexed window bounds. -/
lemma isPivotHigh_iff (bars : List Bar) (w i : Nat) (_hw : w ≤ i)
    (hlen : i + w < bars.length) :
    isPivotHigh bars w i = true ↔
      (∀ k, i - w ≤ k → k < i → (barAt bars k).high ≤ (barAt bars i).high) ∧
        (∀ k, i < k → k ≤ i + w → (barAt bars k).high < (barAt bars i).high) := by
  have hbL : i ≤ bars.length := by omega
  have hbR : i + w + 1 ≤ bars.length := by omega
  rw [isPivotHigh, Bool.and_eq_true,
    listSlice_all_iff (fun b => decide (b.high ≤ (barAt bars i).high)) bars (i - w) i hbL,
    listSlice_all_iff (fun b => decide (b.high < (barAt bars i).high)) bars (i + 1)
      (i + w + 1) hbR]
  simp only [decide_eq_true_eq, barAt]
  constructor
  · rintro ⟨hl, hr⟩
    exact ⟨hl, fun k h1 h2 => hr k (by omega) (by omega)⟩
  · rintro ⟨hl, hr⟩
    exact ⟨hl, fun k h1 h2 => hr k (by omega) (by omega)⟩

/-- C5: a bar with at least `w` bars on each side is classified as a pivot high
exactly when its high is `>=` every high in the left window and `>` every high
in the right window; two distinct pivot highs are always more than `w` indices
apart (so no other bar of the same window is classified from the same
comparison); each pivot high is emitted as a resistance level with strength
medium and touches 1; and fewer than `2*w + 1` bars yield no pivot records at
all. -/
theorem C5_pivot_high_characterisation (bars : List Bar) (w i : Nat) :
    (w ≤ i → i + w < bars.length →
      (i ∈ pivotHighIndices bars w ↔
        (∀ k, i - w ≤ k → k < i → (barAt bars k).high ≤ (barAt bars i).high) ∧
          (∀ k, i < k → k ≤ i + w → (barAt bars k).high < (barAt bars i).high))) ∧
      (∀ j, i ∈ pivotHighIndices bars w → j ∈ pivotHighIndices bars w → i ≠ j →
        i + w < j ∨ j + w < i) ∧
      (i ∈ pivotHighIndices bars w →
        pivotHighLevel (barAt bars i) ∈ pivotRecords bars w) ∧
      (bars.length < 2 * w + 1 → pivotRecords bars w = []) := by
  refine ⟨?_, ?_, ?_, ?_⟩
  · intro hw hlen
    rw [mem_pivotHighIndices_iff]
    constructor
    · rintro ⟨_, _, hp⟩
      exact (isPivotHigh_iff bars w i hw hlen).mp hp
    · intro hcond
      exact ⟨hw, hlen, (isPivotHigh_iff bars w i hw hlen).mpr hcond⟩
  · intro j hi hj hne
    rcases (mem_pivotHighIndices_iff bars w i).mp hi with ⟨hwi, hleni, hpi⟩
    rcases (mem_pivotHighIndices_iff bars w j).mp hj with ⟨hwj, hlenj, hpj⟩
    rcases (isPivotHigh_iff bars w i hwi hleni).mp hpi with ⟨hiL, hiR⟩
    rcases (isPivotHigh_iff bars w j hwj hlenj).mp hpj with ⟨hjL, hjR⟩
    by_contra hcon
    push_neg at hcon
    rcases hcon with ⟨hji, hij⟩
    rcases Nat.lt_or_ge i j with hlt | hge
    · have h1 : (barAt bars j).high < (barAt bars i).high := hiR j hlt (by omega)
      have h2 : (barAt bars i).high ≤ (barAt bars j).high := hjL i (by omega) hlt
      exact absurd h1 (not_lt_of_le h2)
    · have hlt' : j < i := by omega
      have h1 : (barAt bars i).high < (barAt bars j).high := hjR i hlt' (by omega)
      have h2 : (barAt bars j).high ≤ (barAt bars i).high := hiL j (by omega) hlt'
      exact absurd h1 (not_lt_of_le h2)
  · intro hi
    rcases (mem_pivotHighIndices_iff bars w i).mp hi with ⟨hwi, hleni, hpi⟩
    rw [pivotRecords, List.mem_flatMap]
    refine ⟨i, ?_, ?_⟩
    · simp only [pivotIndexRange, List.mem_filter, List.mem_range, Bool.and_eq_true,
        decide_eq_true_eq]
      exact ⟨by omega, hwi, hleni⟩
    · rw [if_pos hpi]
      simp
  · intro hshort
    have hempty : pivotIndexRange bars w = [] := by
      rw [pivotIndexRange, List.filter_eq_nil_iff]
      intro a _
      simp only [Bool.and_eq_true, decide_eq_true_eq, not_and]
      intro hwa hlena
      omega
    rw [pivotRecords, hempty]
    rfl

/-- Witness for C5: a one-bar sequence with window 10 yields no pivot records. -/
theorem C5_witness : pivotRecords shortBars 10 = [] :=
  (C5_pivot_high_characterisation shortBars 10 0).2.2.2 (by decide)

end FlagEdge
